import Mathlib

/-!
Shallow embedding of the run-supervisor subsystem of the OptionsTrading
application: `app/runner_service.py` (class RunnerService), the run endpoints in
`app/routers/runs.py`, and the heartbeat write of `strategies/runner.py`.

Timestamps are natural numbers; PostgreSQL rows are Lean structures; the
database effects of each Python method are modelled as pure state transformers
on a `DbState` that carries the run row, the run_events rows for that run, the
membership of the run in the supervisor in-memory `running_processes` map, and
an ordered trace of the SQL writes and OS actions the method performs.  Every
committed UPDATE is visible in the output state even when the Python method
afterwards raises, mirroring the per-statement connection commit pattern of the
source (each helper opens a connection, commits and closes it).
-/

/-- The `runs.status` column values used by the system (spec section 3,
runner_service.py and routers/runs.py). -/
inductive Status
  | pending
  | starting
  | running
  | stopping
  | stopped
  | error
  | dead
deriving DecidableEq, Repr

/-- Terminal statuses per spec section 4.1: stopped, error, dead. -/
def Status.isTerminal : Status → Bool
  | Status.stopped => true
  | Status.error => true
  | Status.dead => true
  | _ => false

/-- Event levels written through `add_event` (info, warn, error). -/
inductive Level
  | info
  | warn
  | error
deriving DecidableEq, Repr

/-- Python exceptions relevant to the embedded methods. `typeError` is what
psycopg2 parameter interpolation raises on a placeholder-count mismatch;
`launchError` stands for whatever `subprocess.Popen` or the preceding setup
raised inside `launch_strategy`. -/
inductive PyExc
  | typeError
  | launchError (msg : String)
deriving DecidableEq, Repr

/-- A row of the `run_events` table (runner_service.py lines 56-64). -/
structure RunEvent where
  run_id : Nat
  level : Level
  message : String
deriving DecidableEq, Repr

/-- A row of the `runs` table (runner_service.py lines 36-53).  `pid` is the
backend handle column; nullable columns are `Option`. -/
structure RunRow where
  status : Status
  pid : Option Nat
  host : Option String
  started_at : Option Nat
  stopped_at : Option Nat
  last_heartbeat : Option Nat
  exit_code : Option Int
  notes : Option String
  updated_at : Nat
deriving DecidableEq, Repr

/-- The keyword arguments accepted by `update_run_status` (one optional value
per updatable column; `none` models both an absent kwarg and a kwarg passed as
Python None, which line 94 of runner_service.py filters out identically). -/
structure Kwargs where
  pid : Option Nat
  host : Option String
  started_at : Option Nat
  stopped_at : Option Nat
  last_heartbeat : Option Nat
  exit_code : Option Int
  notes : Option String
deriving DecidableEq, Repr

/-- No keyword arguments supplied. -/
def noKwargs : Kwargs :=
  { pid := none, host := none, started_at := none, stopped_at := none,
    last_heartbeat := none, exit_code := none, notes := none }

/-- One column of the dynamic SET list: a kwarg that is present (not None)
overwrites the column, an absent or None kwarg leaves it unchanged
(runner_service.py lines 93-96). -/
def setIfSome {α : Type} (v : Option α) (old : Option α) : Option α :=
  match v with
  | some x => some x
  | none => old

/-- Embeds `RunnerService.update_run_status` (runner_service.py lines 85-113):
kwargs whose value is None are dropped from the SET list; both the kwargs
branch (lines 98-105) and the no-kwargs branch (lines 106-110) write `status`
and `updated_at` unconditionally.  The UPDATE is committed before the
connection closes (line 112). -/
def update_run_status (row : RunRow) (status : Status) (kw : Kwargs)
    (now : Nat) : RunRow :=
  { status := status
    pid := setIfSome kw.pid row.pid
    host := setIfSome kw.host row.host
    started_at := setIfSome kw.started_at row.started_at
    stopped_at := setIfSome kw.stopped_at row.stopped_at
    last_heartbeat := setIfSome kw.last_heartbeat row.last_heartbeat
    exit_code := setIfSome kw.exit_code row.exit_code
    notes := setIfSome kw.notes row.notes
    updated_at := now }

/-- The placeholder style of a parametrised SQL statement: qmark is the
sqlite-style question mark, percentS the %s marker psycopg2 requires. -/
inductive SqlParamStyle
  | qmark
  | percentS
deriving DecidableEq, Repr

/-- The INSERT executed by `add_event` (runner_service.py line 79) is written
with qmark placeholders, VALUES (?, ?, ?), unlike every other statement of the
file, which uses %s. -/
def add_event_paramStyle : SqlParamStyle := SqlParamStyle.qmark

/-- Model of psycopg2 client-side parameter binding: `cursor.execute(q, args)`
interpolates the argument tuple at the %s markers of `q` using Python percent
formatting; a statement with a non-empty argument tuple but no %s markers (as
with qmark placeholders) makes that formatting raise TypeError before anything
reaches the database. -/
def psycopg2Bind (style : SqlParamStyle) : Except PyExc Unit :=
  match style with
  | SqlParamStyle.percentS => Except.ok ()
  | SqlParamStyle.qmark => Except.error PyExc.typeError

/-- Embeds `RunnerService.add_event` (runner_service.py lines 74-83): it binds
a 3-tuple of parameters against a statement with qmark placeholders, so the
bind raises TypeError and no event row is ever inserted. -/
def add_event (events : List RunEvent) (run_id : Nat) (level : Level)
    (message : String) : Except PyExc (List RunEvent) :=
  match psycopg2Bind add_event_paramStyle with
  | Except.ok _ => Except.ok (events ++ [{ run_id := run_id, level := level, message := message }])
  | Except.error e => Except.error e

/-- Observable write actions of a supervisor method, in program order:
committed UPDATEs of the runs row, attempted INSERTs into run_events, and the
OS-level signalling of `stop_strategy`. -/
inductive Act
  | dbUpdate (status : Status) (kw : Kwargs)
  | eventAttempt (level : Level) (message : String)
  | sigterm
  | sigkill
  | waitGrace (seconds : Nat)
deriving DecidableEq, Repr

/-- Persistent state touched by the supervisor, for a single run: its runs row,
its run_events rows, whether the run id is tracked in the in-memory
`running_processes` map, and the ordered trace of actions performed so far. -/
structure DbState where
  row : RunRow
  events : List RunEvent
  inProcs : Bool
  trace : List Act
deriving DecidableEq, Repr

/-- Perform a committed `update_run_status` call and record it in the trace. -/
def doUpdate (st : DbState) (status : Status) (kw : Kwargs) (now : Nat) :
    DbState :=
  { st with
    row := update_run_status st.row status kw now
    trace := st.trace ++ [Act.dbUpdate status kw] }

/-- Perform an `add_event` call and record the attempt in the trace.  On the
raising path the state reached so far is carried inside the error, because the
database effects already committed stay committed. -/
def doAddEvent (st : DbState) (run_id : Nat) (level : Level) (message : String) :
    Except (DbState × PyExc) DbState :=
  match add_event st.events run_id level message with
  | Except.ok es =>
      Except.ok { st with
        events := es
        trace := st.trace ++ [Act.eventAttempt level message] }
  | Except.error e =>
      Except.error ({ st with trace := st.trace ++ [Act.eventAttempt level message] }, e)

/-- Embeds `RunnerService.claim_run` (runner_service.py lines 132-148): a
conditional UPDATE guarded by `AND status = 'pending'` (line 138) that sets
status to starting and refreshes updated_at; on rowcount zero the method
returns False with nothing changed (the connection closes uncommitted, but the
UPDATE matched no row).  On a successful claim the transaction is committed
(line 144) and `add_event` is then called (line 145), whose placeholder bug
raises TypeError, so the method raises instead of returning True while the
committed claim stays in the database. -/
def claim_run (st : DbState) (run_id : Nat) (now : Nat) :
    DbState × Except PyExc Bool :=
  if st.row.status = Status.pending then
    let st1 := doUpdate st Status.starting noKwargs now
    match doAddEvent st1 run_id Level.info "Run claimed by runner service" with
    | Except.ok st2 => (st2, Except.ok true)
    | Except.error (st2, e) => (st2, Except.error e)
  else
    (st, Except.ok false)

/-- The try block of `RunnerService.launch_strategy` (runner_service.py lines
152-207).  `popen` is the outcome of the environment setup, log-file creation
and `subprocess.Popen` call: `Except.ok pid` when the OS process started,
`Except.error msg` when any of it raised.  On a started process the run id is
put into `running_processes` (line 189), the row is set to running with pid,
host and started_at (lines 197-203), and `add_event` is called (line 205). -/
def launch_strategy_try (st : DbState) (run_id : Nat)
    (popen : Except String Nat) (host : String) (now : Nat) :
    Except (DbState × PyExc) DbState :=
  match popen with
  | Except.error msg => Except.error (st, PyExc.launchError msg)
  | Except.ok pid =>
      let st1 : DbState := { st with inProcs := true }
      let st2 := doUpdate st1 Status.running
        { noKwargs with pid := some pid, host := some host, started_at := some now } now
      doAddEvent st2 run_id Level.info "Strategy process started"

/-- Embeds `RunnerService.launch_strategy` (runner_service.py lines 150-213):
the try block above wrapped in the except handler of lines 209-213, which
first calls `add_event` with an error-level message (line 210) and only then
would set the row to error with exit_code 1 (line 211); because `add_event`
raises, the handler re-raises and line 211 is unreachable.  The result is the
returned pid (`Except.ok`), or the exception that escaped the method. -/
def launch_strategy (st : DbState) (run_id : Nat) (popen : Except String Nat)
    (host : String) (now : Nat) : DbState × Except PyExc (Option Nat) :=
  match launch_strategy_try st run_id popen host now with
  | Except.ok st2 =>
      (st2, Except.ok (match popen with | Except.ok pid => some pid | _ => none))
  | Except.error (st2, _) =>
      match doAddEvent st2 run_id Level.error "Failed to launch strategy" with
      | Except.ok st3 =>
          (doUpdate st3 Status.error { noKwargs with exit_code := some 1 } now,
           Except.ok none)
      | Except.error (st3, e2) => (st3, Except.error e2)

/-- The finalization tail of `stop_strategy` (runner_service.py lines 252-265):
remove the run from the in-memory maps, set the row to stopped with stopped_at
and the collected exit code, and call `add_event`. -/
def stop_finalize (st : DbState) (run_id : Nat) (ec : Int) (now : Nat) :
    Except (DbState × PyExc) DbState :=
  let st1 : DbState := { st with inProcs := false }
  let st2 := doUpdate st1 Status.stopped
    { noKwargs with stopped_at := some now, exit_code := some ec } now
  doAddEvent st2 run_id Level.info "Strategy stopped"

/-- The try block of `RunnerService.stop_strategy` (runner_service.py lines
220-267).  `termExit` describes the backend: `some rc` when the process exits
with code rc within the grace period after SIGTERM (line 240), `none` when it
ignores the cooperative stop so that `process.wait` times out and the method
escalates to a warn event plus SIGKILL with exit code -1 (lines 242-250). -/
def stop_strategy_try (st : DbState) (run_id : Nat) (grace_period : Nat)
    (termExit : Option Int) (now : Nat) : Except (DbState × PyExc) DbState :=
  let st1 := doUpdate st Status.stopping noKwargs now
  match doAddEvent st1 run_id Level.info "Stopping strategy" with
  | Except.error e => Except.error e
  | Except.ok st2 =>
      let st3 : DbState := { st2 with trace := st2.trace ++ [Act.sigterm] }
      match termExit with
      | some rc =>
          let st4 : DbState := { st3 with trace := st3.trace ++ [Act.waitGrace grace_period] }
          stop_finalize st4 run_id rc now
      | none =>
          let st4 : DbState := { st3 with trace := st3.trace ++ [Act.waitGrace grace_period] }
          match doAddEvent st4 run_id Level.warn "Grace period exceeded, force killing process" with
          | Except.error e => Except.error e
          | Except.ok st5 =>
              let st6 : DbState := { st5 with trace := st5.trace ++ [Act.sigkill] }
              stop_finalize st6 run_id (-1) now

/-- Embeds `RunnerService.stop_strategy` (runner_service.py lines 215-273): an
untracked run id returns False immediately (lines 217-218); otherwise the try
block runs under the except handler of lines 269-273, which calls `add_event`
with an error message (line 270) and only then would set the row to error
(line 271); because `add_event` raises, the handler re-raises.  With the
placeholder bug the try block itself already raises at line 223, right after
the committed update to stopping and before any signal is sent. -/
def stop_strategy (st : DbState) (run_id : Nat) (grace_period : Nat)
    (termExit : Option Int) (now : Nat) : DbState × Except PyExc Bool :=
  if st.inProcs = false then
    (st, Except.ok false)
  else
    match stop_strategy_try st run_id grace_period termExit now with
    | Except.ok st2 => (st2, Except.ok true)
    | Except.error (st2, _) =>
        match doAddEvent st2 run_id Level.error "Error stopping strategy" with
        | Except.ok st3 => (doUpdate st3 Status.error noKwargs now, Except.ok false)
        | Except.error (st3, e2) => (st3, Except.error e2)

/-- Embeds the per-run body of `RunnerService.monitor_processes`
(runner_service.py lines 305-326) for a run tracked in `running_processes`.
`poll` is the `process.poll()` result: `none` while the process is still
running (nothing happens), `some ec` once it has finished.  On a finished
process the row is set to stopped with stopped_at and the exit code (lines
309-314) regardless of the code; the event level then depends on the code
(lines 316-319); the in-memory cleanup (lines 322-324) runs after the event
call, hence never, since `add_event` raises and `monitor_processes` has no
try/except of its own.  The second component is the exception escaping to the
main loop, if any. -/
def monitor_processes_run (st : DbState) (run_id : Nat) (poll : Option Int)
    (now : Nat) : DbState × Option PyExc :=
  match poll with
  | none => (st, none)
  | some ec =>
      let st1 := doUpdate st Status.stopped
        { noKwargs with stopped_at := some now, exit_code := some ec } now
      let lv := if ec = 0 then Level.info else Level.error
      let msg := if ec = 0 then "Strategy completed successfully" else "Strategy failed"
      match doAddEvent st1 run_id lv msg with
      | Except.ok st2 => ({ st2 with inProcs := false }, none)
      | Except.error (st2, e) => (st2, some e)

/-- The staleness predicate of the SELECT in `check_heartbeats`
(runner_service.py lines 281-285): last_heartbeat IS NULL or older than 30
seconds before now. -/
def stale (row : RunRow) (now : Nat) : Bool :=
  match row.last_heartbeat with
  | none => true
  | some hb => decide (hb + 30 < now)

/-- The per-run condition of line 289, `if pid and not psutil.pid_exists(pid)`:
true only when the pid column is set and the OS probe `pid_exists` reports the
process gone; a NULL pid is falsy in Python, so nothing happens for it. -/
def pidAbsent (pid : Option Nat) (pid_exists : Nat → Bool) : Bool :=
  match pid with
  | some p => !(pid_exists p)
  | none => false

/-- Embeds the per-run body of `RunnerService.check_heartbeats`
(runner_service.py lines 275-301): the SELECT picks rows with status running
and a stale (or never set) heartbeat; for each such row, only when the pid is
set and `psutil.pid_exists` fails is the row set to dead with exit_code -1
(line 291), followed by the `add_event` call (line 292) that raises, so the
prints and the in-memory cleanup of lines 293-299 never run.  A stale row
whose process is still alive is left entirely untouched; the method has no
warning write for that case. -/
def check_heartbeats_run (st : DbState) (run_id : Nat)
    (pid_exists : Nat → Bool) (now : Nat) : DbState × Option PyExc :=
  if st.row.status = Status.running ∧ stale st.row now then
    if pidAbsent st.row.pid pid_exists then
      let st1 := doUpdate st Status.dead { noKwargs with exit_code := some (-1) } now
      match doAddEvent st1 run_id Level.error "Process died unexpectedly" with
      | Except.ok st2 => ({ st2 with inProcs := false }, none)
      | Except.error (st2, e) => (st2, some e)
    else
      (st, none)
  else
    (st, none)

/-- Embeds `update_heartbeat` of the workload shim (strategies/runner.py lines
26-38): an UPDATE of last_heartbeat alone, with correct %s placeholders. -/
def touch_heartbeat (row : RunRow) (now : Nat) : RunRow :=
  { row with last_heartbeat := some now }

/-- The HTTP responses of the POST stop endpoint in app/routers/runs.py:
HTTPException 404 when the run id is unknown (line 111), HTTPException 400
carrying the current status when it is not running or starting (lines
113-114), and the success payload otherwise (lines 128-131). -/
inductive StopRunResponse
  | notFound
  | badStatus (st : Status)
  | success (grace : Nat)
deriving DecidableEq, Repr

/-- Whether a stop endpoint response is the success payload. -/
def StopRunResponse.isSuccess : StopRunResponse → Bool
  | StopRunResponse.success _ => true
  | _ => false

/-- Embeds the `stop_run` endpoint (app/routers/runs.py lines 99-136): fetch
the row; 404 when absent; 400 without touching the row when its status is not
running or starting; otherwise set status to stopping with a fresh updated_at
(lines 117-120) and return success.  The endpoint never touches stopped_at,
exit_code or pid. -/
def stop_run (rowq : Option RunRow) (grace : Nat) (now : Nat) :
    StopRunResponse × Option RunRow :=
  match rowq with
  | none => (StopRunResponse.notFound, none)
  | some r =>
      if r.status = Status.running ∨ r.status = Status.starting then
        (StopRunResponse.success grace,
         some { r with status := Status.stopping, updated_at := now })
      else
        (StopRunResponse.badStatus r.status, some r)

/-- The row inserted by the create_run endpoint (app/routers/runs.py lines
36-40): status pending, every nullable column NULL. -/
def insertRun (now : Nat) : RunRow :=
  { status := Status.pending, pid := none, host := none, started_at := none,
    stopped_at := none, last_heartbeat := none, exit_code := none,
    notes := none, updated_at := now }

/-- Initial supervisor-visible state of a freshly submitted run: the pending
row, no events, not tracked in memory, nothing performed yet. -/
def initState (now : Nat) : DbState :=
  { row := insertRun now, events := [], inProcs := false, trace := [] }

/-- The status transition edges listed in spec section 4.1. -/
def specEdges : List (Status × Status) :=
  [(Status.pending, Status.starting),
   (Status.starting, Status.running),
   (Status.starting, Status.error),
   (Status.running, Status.stopping),
   (Status.running, Status.stopped),
   (Status.running, Status.error),
   (Status.running, Status.dead),
   (Status.stopping, Status.stopped),
   (Status.stopping, Status.dead)]

/-- The section 4.1 edges plus the transition the stop endpoint actually
performs from starting (its guard at routers/runs.py line 113 admits both
running and starting). -/
def amendedEdges : List (Status × Status) :=
  specEdges ++ [(Status.starting, Status.stopping)]

/-- One observable step of the system on the persistent state of a single run:
the supervisor loop operations of runner_service.py (claim at line 338, launch
at line 339 guarded by a True claim result, monitor at line 342 for tracked
runs, heartbeat check at line 345, shutdown stop at line 360) together with the
writes of the other processes under src (the stop endpoint of routers/runs.py,
the heartbeat write of the workload shim strategies/runner.py). -/
inductive SysStep (run_id : Nat) (pid_exists : Nat → Bool) :
    DbState → DbState → Prop
  | claim (now : Nat) (s : DbState) :
      SysStep run_id pid_exists s (claim_run s run_id now).1
  | launch (s0 : DbState) (now0 : Nat) (popen : Except String Nat)
      (host : String) (now : Nat) (s : DbState)
      (hclaim : (claim_run s0 run_id now0).2 = Except.ok true)
      (hs : s = (claim_run s0 run_id now0).1) :
      SysStep run_id pid_exists s (launch_strategy s run_id popen host now).1
  | monitor (poll : Option Int) (now : Nat) (s : DbState)
      (htracked : s.inProcs = true) :
      SysStep run_id pid_exists s (monitor_processes_run s run_id poll now).1
  | heartbeatCheck (now : Nat) (s : DbState) :
      SysStep run_id pid_exists s (check_heartbeats_run s run_id pid_exists now).1
  | endpointStop (grace now : Nat) (s : DbState) :
      SysStep run_id pid_exists s
        { s with row := ((stop_run (some s.row) grace now).2).getD s.row }
  | shutdownStop (grace : Nat) (termExit : Option Int) (now : Nat) (s : DbState) :
      SysStep run_id pid_exists s (stop_strategy s run_id grace termExit now).1
  | workloadHeartbeat (now : Nat) (s : DbState) :
      SysStep run_id pid_exists s { s with row := touch_heartbeat s.row now }

/-- States reachable from the freshly inserted pending run through system
steps. -/
def Reach (run_id : Nat) (pid_exists : Nat → Bool) (now0 : Nat)
    (s : DbState) : Prop :=
  Relation.ReflTransGen (SysStep run_id pid_exists) (initState now0) s

theorem add_event_raises (events : List RunEvent) (run_id : Nat) (level : Level)
    (message : String) :
    add_event events run_id level message = Except.error PyExc.typeError := rfl

theorem doAddEvent_raises (st : DbState) (run_id : Nat) (level : Level)
    (message : String) :
    doAddEvent st run_id level message =
      Except.error
        ({ st with trace := st.trace ++ [Act.eventAttempt level message] },
         PyExc.typeError) := rfl

/-- The claim method can never return True: on the pending branch the
placeholder bug of add_event raises after the commit, and on the other branch
it returns False. -/
theorem claim_run_never_true (st : DbState) (run_id : Nat) (now : Nat) :
    (claim_run st run_id now).2 ≠ Except.ok true := by
  simp only [claim_run, doAddEvent_raises]
  split <;> simp

theorem claim_run_not_pending (st : DbState) (run_id : Nat) (now : Nat)
    (h : st.row.status ≠ Status.pending) :
    claim_run st run_id now = (st, Except.ok false) := by
  unfold claim_run
  rw [if_neg h]

theorem claim_run_pending (st : DbState) (run_id : Nat) (now : Nat)
    (h : st.row.status = Status.pending) :
    claim_run st run_id now =
      ({ row := update_run_status st.row Status.starting noKwargs now,
         events := st.events, inProcs := st.inProcs,
         trace := (st.trace ++ [Act.dbUpdate Status.starting noKwargs]) ++
           [Act.eventAttempt Level.info "Run claimed by runner service"] },
       Except.error PyExc.typeError) := by
  simp only [claim_run, if_pos h, doAddEvent_raises, doUpdate]

theorem monitor_run_none (st : DbState) (run_id : Nat) (now : Nat) :
    monitor_processes_run st run_id none now = (st, none) := rfl

theorem monitor_run_some (st : DbState) (run_id : Nat) (ec : Int) (now : Nat) :
    monitor_processes_run st run_id (some ec) now =
      ({ row := update_run_status st.row Status.stopped
           { noKwargs with stopped_at := some now, exit_code := some ec } now,
         events := st.events, inProcs := st.inProcs,
         trace := (st.trace ++ [Act.dbUpdate Status.stopped
             { noKwargs with stopped_at := some now, exit_code := some ec }]) ++
           [Act.eventAttempt (if ec = 0 then Level.info else Level.error)
             (if ec = 0 then "Strategy completed successfully" else "Strategy failed")] },
       some PyExc.typeError) := by
  simp only [monitor_processes_run, doAddEvent_raises, doUpdate]

theorem check_run_not_running (st : DbState) (run_id : Nat)
    (pid_exists : Nat → Bool) (now : Nat) (h : st.row.status ≠ Status.running) :
    check_heartbeats_run st run_id pid_exists now = (st, none) := by
  unfold check_heartbeats_run
  rw [if_neg (fun hc => h hc.1)]

theorem check_run_inProcs (st : DbState) (run_id : Nat)
    (pid_exists : Nat → Bool) (now : Nat) :
    (check_heartbeats_run st run_id pid_exists now).1.inProcs = st.inProcs := by
  unfold check_heartbeats_run
  split
  · split
    · simp [doAddEvent_raises, doUpdate]
    · rfl
  · rfl

theorem stop_strategy_untracked (st : DbState) (run_id grace : Nat)
    (termExit : Option Int) (now : Nat) (h : st.inProcs = false) :
    stop_strategy st run_id grace termExit now = (st, Except.ok false) := by
  unfold stop_strategy
  rw [if_pos h]

theorem stop_run_some (r : RunRow) (grace now : Nat) :
    stop_run (some r) grace now =
      if r.status = Status.running ∨ r.status = Status.starting then
        (StopRunResponse.success grace,
         some { r with status := Status.stopping, updated_at := now })
      else (StopRunResponse.badStatus r.status, some r) := rfl

/-- The statuses a run can actually hold in the embedded system: because
claim_run raises after its commit, the main loop never reaches
launch_strategy, so no run ever becomes running, and the supervisor in-memory
map stays empty. -/
def GoodStatus (st : Status) : Prop :=
  st = Status.pending ∨ st = Status.starting ∨ st = Status.stopping

/-- Reachability invariant of the system: the run is not tracked in
running_processes and its status is pending, starting or stopping. -/
def SysInv (s : DbState) : Prop :=
  s.inProcs = false ∧ GoodStatus s.row.status

theorem SysInv_step (run_id : Nat) (pid_exists : Nat → Bool) (s s' : DbState)
    (hinv : SysInv s) (hstep : SysStep run_id pid_exists s s') : SysInv s' := by
  obtain ⟨hproc, hstat⟩ := hinv
  cases hstep with
  | claim now s =>
      by_cases hp : s.row.status = Status.pending
      · rw [claim_run_pending s run_id now hp]
        exact ⟨hproc, Or.inr (Or.inl rfl)⟩
      · rw [claim_run_not_pending s run_id now hp]
        exact ⟨hproc, hstat⟩
  | launch s0 now0 popen host now s hclaim hs =>
      exact absurd hclaim (claim_run_never_true s0 run_id now0)
  | monitor poll now s htracked =>
      rw [hproc] at htracked
      exact absurd htracked (by simp)
  | heartbeatCheck now s =>
      have hnr : s.row.status ≠ Status.running := by
        rcases hstat with h | h | h <;> rw [h] <;> simp
      rw [check_run_not_running s run_id pid_exists now hnr]
      exact ⟨hproc, hstat⟩
  | endpointStop grace now s =>
      rw [stop_run_some]
      by_cases hrs : s.row.status = Status.running ∨ s.row.status = Status.starting
      · rw [if_pos hrs]
        exact ⟨hproc, Or.inr (Or.inr rfl)⟩
      · rw [if_neg hrs]
        exact ⟨hproc, hstat⟩
  | shutdownStop grace termExit now s =>
      rw [stop_strategy_untracked s run_id grace termExit now hproc]
      exact ⟨hproc, hstat⟩
  | workloadHeartbeat now s =>
      exact ⟨hproc, hstat⟩

theorem SysInv_init (now0 : Nat) : SysInv (initState now0) :=
  ⟨rfl, Or.inl rfl⟩

theorem SysInv_reach (run_id : Nat) (pid_exists : Nat → Bool) (now0 : Nat)
    (s : DbState) (h : Reach run_id pid_exists now0 s) : SysInv s := by
  induction h with
  | refl => exact SysInv_init now0
  | tail hab hbc ih => exact SysInv_step run_id pid_exists _ _ ih hbc

theorem stop_strategy_tracked (st : DbState) (run_id grace : Nat)
    (termExit : Option Int) (now : Nat) (h : st.inProcs = true) :
    stop_strategy st run_id grace termExit now =
      ({ row := update_run_status st.row Status.stopping noKwargs now,
         events := st.events, inProcs := st.inProcs,
         trace := ((st.trace ++ [Act.dbUpdate Status.stopping noKwargs]) ++
           [Act.eventAttempt Level.info "Stopping strategy"]) ++
           [Act.eventAttempt Level.error "Error stopping strategy"] },
       Except.error PyExc.typeError) := by
  unfold stop_strategy
  rw [if_neg (by simp [h])]
  unfold stop_strategy_try
  simp only [doAddEvent_raises, doUpdate]

theorem launch_strategy_fail (st : DbState) (run_id : Nat) (msg host : String)
    (now : Nat) :
    launch_strategy st run_id (Except.error msg) host now =
      ({ st with trace := st.trace ++
           [Act.eventAttempt Level.error "Failed to launch strategy"] },
       Except.error PyExc.typeError) := by
  unfold launch_strategy launch_strategy_try
  simp only [doAddEvent_raises]

theorem check_run_dead (st : DbState) (run_id : Nat) (pid_exists : Nat → Bool)
    (now : Nat) (hrun : st.row.status = Status.running)
    (hstale : stale st.row now = true)
    (habs : pidAbsent st.row.pid pid_exists = true) :
    check_heartbeats_run st run_id pid_exists now =
      ({ row := update_run_status st.row Status.dead
           { noKwargs with exit_code := some (-1) } now,
         events := st.events, inProcs := st.inProcs,
         trace := (st.trace ++ [Act.dbUpdate Status.dead
             { noKwargs with exit_code := some (-1) }]) ++
           [Act.eventAttempt Level.error "Process died unexpectedly"] },
       some PyExc.typeError) := by
  unfold check_heartbeats_run
  rw [if_pos ⟨hrun, hstale⟩, if_pos habs]
  simp only [doAddEvent_raises, doUpdate]

theorem check_run_stale_alive (st : DbState) (run_id : Nat)
    (pid_exists : Nat → Bool) (now : Nat)
    (hrun : st.row.status = Status.running)
    (hstale : stale st.row now = true)
    (halive : pidAbsent st.row.pid pid_exists = false) :
    check_heartbeats_run st run_id pid_exists now = (st, none) := by
  unfold check_heartbeats_run
  rw [if_pos ⟨hrun, hstale⟩, if_neg (by simp [halive])]

theorem check_run_fresh (st : DbState) (run_id : Nat)
    (pid_exists : Nat → Bool) (now : Nat) (hstale : stale st.row now = false) :
    check_heartbeats_run st run_id pid_exists now = (st, none) := by
  unfold check_heartbeats_run
  rw [if_neg (fun hc => absurd hc.2 (by simp [hstale]))]

theorem setIfSome_frame {α : Type} (v old : Option α) :
    (v = none → setIfSome v old = old) ∧
    (∀ x, v = some x → setIfSome v old = some x) ∧
    (setIfSome v old = none → old = none) := by
  cases v with
  | none =>
      refine ⟨fun _ => rfl, ?_, fun h => h⟩
      intro x hx
      cases hx
  | some x =>
      refine ⟨?_, ?_, ?_⟩
      · intro h
        cases h
      · intro y hy
        cases hy
        rfl
      · intro h
        cases h

/-- C10: in update_run_status every kwarg whose value is None is silently
dropped, leaving the corresponding column unchanged, so no column of a run can
be reset to NULL through this method; the status and updated_at columns are
written on every call regardless of which kwargs are supplied.  Stated per
column as: the None kwarg keeps the old value, a some kwarg overwrites it, and
a NULL result column implies the column was already NULL before the call. -/
theorem C10_update_frame (row : RunRow) (status : Status) (kw : Kwargs)
    (now : Nat) :
    (update_run_status row status kw now).status = status ∧
    (update_run_status row status kw now).updated_at = now ∧
    ((kw.pid = none → (update_run_status row status kw now).pid = row.pid) ∧
     (∀ v, kw.pid = some v → (update_run_status row status kw now).pid = some v) ∧
     ((update_run_status row status kw now).pid = none → row.pid = none)) ∧
    ((kw.host = none → (update_run_status row status kw now).host = row.host) ∧
     (∀ v, kw.host = some v → (update_run_status row status kw now).host = some v) ∧
     ((update_run_status row status kw now).host = none → row.host = none)) ∧
    ((kw.started_at = none → (update_run_status row status kw now).started_at = row.started_at) ∧
     (∀ v, kw.started_at = some v → (update_run_status row status kw now).started_at = some v) ∧
     ((update_run_status row status kw now).started_at = none → row.started_at = none)) ∧
    ((kw.stopped_at = none → (update_run_status row status kw now).stopped_at = row.stopped_at) ∧
     (∀ v, kw.stopped_at = some v → (update_run_status row status kw now).stopped_at = some v) ∧
     ((update_run_status row status kw now).stopped_at = none → row.stopped_at = none)) ∧
    ((kw.last_heartbeat = none → (update_run_status row status kw now).last_heartbeat = row.last_heartbeat) ∧
     (∀ v, kw.last_heartbeat = some v → (update_run_status row status kw now).last_heartbeat = some v) ∧
     ((update_run_status row status kw now).last_heartbeat = none → row.last_heartbeat = none)) ∧
    ((kw.exit_code = none → (update_run_status row status kw now).exit_code = row.exit_code) ∧
     (∀ v, kw.exit_code = some v → (update_run_status row status kw now).exit_code = some v) ∧
     ((update_run_status row status kw now).exit_code = none → row.exit_code = none)) ∧
    ((kw.notes = none → (update_run_status row status kw now).notes = row.notes) ∧
     (∀ v, kw.notes = some v → (update_run_status row status kw now).notes = some v) ∧
     ((update_run_status row status kw now).notes = none → row.notes = none)) :=
  ⟨rfl, rfl,
   setIfSome_frame kw.pid row.pid,
   setIfSome_frame kw.host row.host,
   setIfSome_frame kw.started_at row.started_at,
   setIfSome_frame kw.stopped_at row.stopped_at,
   setIfSome_frame kw.last_heartbeat row.last_heartbeat,
   setIfSome_frame kw.exit_code row.exit_code,
   setIfSome_frame kw.notes row.notes⟩

/-- Fixture row for the C10 witness: a running run with a pid, host and
heartbeat set and exit_code still NULL. -/
def c10row : RunRow :=
  { status := Status.running, pid := some 4242, host := some "host1",
    started_at := some 1, stopped_at := none, last_heartbeat := some 2,
    exit_code := none, notes := none, updated_at := 3 }

/-- Fixture kwargs for the C10 witness: only exit_code supplied. -/
def c10kw : Kwargs := { noKwargs with exit_code := some 7 }

theorem C10_witness :
    (update_run_status c10row Status.stopped c10kw 9).pid = some 4242 ∧
    (update_run_status c10row Status.stopped c10kw 9).exit_code = some 7 ∧
    (update_run_status c10row Status.stopped c10kw 9).status = Status.stopped ∧
    (update_run_status c10row Status.stopped c10kw 9).updated_at = 9 := by
  obtain ⟨h1, h2, hp, hh, hsa, hso, hb, he, hn⟩ :=
    C10_update_frame c10row Status.stopped c10kw 9
  exact ⟨hp.1 rfl, he.2.1 7 rfl, h1, h2⟩

/-- C2 amended: when the backend reports completion during poll, the run is
finalized as stopped regardless of the exit code, with the exit code and
stopped_at recorded; the error status of the claim is never produced here,
only the level of the attempted event distinguishes failure from success. -/
theorem C2_monitor_always_stopped (st : DbState) (run_id : Nat) (ec : Int)
    (now : Nat) :
    (monitor_processes_run st run_id (some ec) now).1.row.status = Status.stopped ∧
    (monitor_processes_run st run_id (some ec) now).1.row.exit_code = some ec ∧
    (monitor_processes_run st run_id (some ec) now).1.row.stopped_at = some now := by
  rw [monitor_run_some]
  exact ⟨rfl, rfl, rfl⟩

/-- Fixture for C2: a tracked running run whose process exits with code 1. -/
def c2st : DbState :=
  { row := { status := Status.running, pid := some 4242, host := some "host1",
             started_at := some 1, stopped_at := none, last_heartbeat := some 40,
             exit_code := none, notes := none, updated_at := 40 },
    events := [], inProcs := true, trace := [] }

/-- C2 counterexample: a backend completing with exit code 1 before any stop
request is finalized as stopped, not error, contradicting the claim that a
non-zero exit code yields status error. -/
theorem C2_counterexample :
    (monitor_processes_run c2st 7 (some 1) 50).1.row.status = Status.stopped ∧
    decide ((monitor_processes_run c2st 7 (some 1) 50).1.row.status = Status.error) = false ∧
    (monitor_processes_run c2st 7 (some 1) 50).1.row.exit_code = some 1 :=
  ⟨rfl, rfl, rfl⟩

/-- C9 amended: no finalizing transition clears the stored backend handle: the
pid column is left unchanged by poll completion, by heartbeat death, by the
stop path and by launch failure, so a run in a terminal status retains the pid
recorded at launch. -/
theorem C9_pid_never_cleared (st : DbState) (run_id : Nat) (poll : Option Int)
    (pid_exists : Nat → Bool) (grace : Nat) (termExit : Option Int)
    (msg host : String) (now : Nat) :
    (monitor_processes_run st run_id poll now).1.row.pid = st.row.pid ∧
    (check_heartbeats_run st run_id pid_exists now).1.row.pid = st.row.pid ∧
    (stop_strategy st run_id grace termExit now).1.row.pid = st.row.pid ∧
    (launch_strategy st run_id (Except.error msg) host now).1.row.pid = st.row.pid := by
  refine ⟨?_, ?_, ?_, ?_⟩
  · cases poll with
    | none => rfl
    | some ec =>
        rw [monitor_run_some]
        rfl
  · unfold check_heartbeats_run
    split
    · split
      · simp [doAddEvent_raises, doUpdate, update_run_status, setIfSome, noKwargs]
      · rfl
    · rfl
  · cases hp : st.inProcs with
    | false => rw [stop_strategy_untracked st run_id grace termExit now hp]
    | true =>
        rw [stop_strategy_tracked st run_id grace termExit now hp]
        rfl
  · rw [launch_strategy_fail]

/-- Fixture for C9: a tracked running run with pid 4242 whose process exits
normally. -/
def c9st : DbState :=
  { row := { status := Status.running, pid := some 4242, host := some "host1",
             started_at := some 1, stopped_at := none, last_heartbeat := some 40,
             exit_code := none, notes := none, updated_at := 40 },
    events := [], inProcs := true, trace := [] }

/-- C9 counterexample: the finalizing poll transition to stopped leaves the
pid column set, so the terminal run still retains backend handle 4242,
contradicting the claim that every finalizing transition clears it. -/
theorem C9_counterexample :
    (monitor_processes_run c9st 1 (some 0) 50).1.row.status = Status.stopped ∧
    (monitor_processes_run c9st 1 (some 0) 50).1.row.pid = some 4242 ∧
    decide ((monitor_processes_run c9st 1 (some 0) 50).1.row.pid = none) = false :=
  ⟨rfl, rfl, rfl⟩

/-- C3 amended: for a run in status running the heartbeat check transitions it
to dead with exit_code -1 exactly when the heartbeat is stale (or never set)
and the pid is set but the OS probe reports the process absent; when the
heartbeat is stale but the probe still reports the process alive the state is
left completely unchanged (in particular no warning of any kind is recorded);
when both conditions hold the dead status is reached within this single
polling pass. -/
theorem C3_heartbeat_dead_exactly (st : DbState) (run_id : Nat)
    (pid_exists : Nat → Bool) (now : Nat) (h : st.row.status = Status.running) :
    ((check_heartbeats_run st run_id pid_exists now).1.row.status = Status.dead ↔
      (stale st.row now = true ∧ pidAbsent st.row.pid pid_exists = true)) ∧
    (stale st.row now = true → pidAbsent st.row.pid pid_exists = false →
      check_heartbeats_run st run_id pid_exists now = (st, none)) ∧
    (stale st.row now = true → pidAbsent st.row.pid pid_exists = true →
      (check_heartbeats_run st run_id pid_exists now).1.row.status = Status.dead ∧
      (check_heartbeats_run st run_id pid_exists now).1.row.exit_code = some (-1)) := by
  cases hstale : stale st.row now with
  | false =>
      rw [check_run_fresh st run_id pid_exists now hstale]
      refine ⟨?_, ?_, ?_⟩
      · constructor
        · intro hd
          rw [h] at hd
          cases hd
        · intro hc
          exact absurd hc.1 (by decide)
      · intro hs
        exact absurd hs (by decide)
      · intro hs
        exact absurd hs (by decide)
  | true =>
      cases habs : pidAbsent st.row.pid pid_exists with
      | false =>
          rw [check_run_stale_alive st run_id pid_exists now h hstale habs]
          refine ⟨?_, fun _ _ => rfl, ?_⟩
          · constructor
            · intro hd
              rw [h] at hd
              cases hd
            · intro hc
              exact absurd hc.2 (by decide)
          · intro hs hab
            exact absurd hab (by decide)
      | true =>
          rw [check_run_dead st run_id pid_exists now h hstale habs]
          refine ⟨⟨fun _ => ⟨rfl, rfl⟩, fun _ => rfl⟩, ?_, fun _ _ => ⟨rfl, rfl⟩⟩
          intro hs hab
          exact absurd hab (by decide)

/-- Fixture for C3: a tracked running run with pid 4242 and a heartbeat last
seen at time 0, checked at time 100, far beyond the 30 second threshold. -/
def c3st : DbState :=
  { row := { status := Status.running, pid := some 4242, host := some "host1",
             started_at := some 1, stopped_at := none, last_heartbeat := some 0,
             exit_code := none, notes := none, updated_at := 1 },
    events := [], inProcs := true, trace := [] }

/-- C3 counterexample: with a stale heartbeat and a process the OS still
reports alive, the heartbeat check leaves everything untouched and records no
warning at all (the returned state equals the input state, so no event and no
trace entry was produced), contradicting the claim that a warning is logged in
this case. -/
theorem C3_counterexample :
    c3st.row.status = Status.running ∧
    stale c3st.row 100 = true ∧
    pidAbsent c3st.row.pid (fun _ => true) = false ∧
    check_heartbeats_run c3st 3 (fun _ => true) 100 = (c3st, none) :=
  ⟨rfl, rfl, rfl, rfl⟩

theorem C3_witness :
    (check_heartbeats_run c3st 3 (fun _ => false) 100).1.row.status = Status.dead ∧
    (check_heartbeats_run c3st 3 (fun _ => false) 100).1.row.exit_code = some (-1) := by
  have h := C3_heartbeat_dead_exactly c3st 3 (fun _ => false) 100 rfl
  exact h.2.2 rfl rfl

/-- Fixture for C4: a run already finalized as stopped. -/
def c4row : RunRow :=
  { status := Status.stopped, pid := some 4242, host := some "host1",
    started_at := some 1, stopped_at := some 2, last_heartbeat := some 2,
    exit_code := some 0, notes := none, updated_at := 2 }

/-- C4 counterexample: the stop endpoint answers a stopped run with the 400
error payload carrying the status, not with a success response, contradicting
the claim that stopping a terminal run returns success with a note. -/
theorem C4_counterexample :
    (stop_run (some c4row) 20 9).1 = StopRunResponse.badStatus Status.stopped ∧
    (stop_run (some c4row) 20 9).1.isSuccess = false ∧
    (stop_run (some c4row) 20 9).2 = some c4row :=
  ⟨rfl, rfl, rfl⟩

/-- C4 amended: a stop request against a run in a terminal status fails with
the 400 error response carrying that status and mutates none of the run
columns (the row is returned unchanged, so stopped_at, exit_code and status
are untouched); a stop request for an unknown id fails with 404; only runs in
status running or starting are marked stopping. -/
theorem C4_stop_terminal_rejected (r : RunRow) (grace now : Nat)
    (h : r.status.isTerminal = true) :
    stop_run (some r) grace now = (StopRunResponse.badStatus r.status, some r) ∧
    stop_run none grace now = (StopRunResponse.notFound, none) := by
  have hcond : ¬(r.status = Status.running ∨ r.status = Status.starting) := by
    intro hc
    rcases hc with hc | hc <;> rw [hc] at h <;> exact absurd h (by decide)
  rw [stop_run_some, if_neg hcond]
  exact ⟨rfl, rfl⟩

theorem C4_witness :
    stop_run (some c4row) 20 9 = (StopRunResponse.badStatus Status.stopped, some c4row) := by
  have h := C4_stop_terminal_rejected c4row 20 9 rfl
  exact h.1

/-- Fixture for C5: a supervisor state holding a run that is not pending. -/
def c5stopped : DbState :=
  { row := { status := Status.stopped, pid := some 4242, host := some "host1",
             started_at := some 1, stopped_at := some 2, last_heartbeat := some 2,
             exit_code := some 0, notes := none, updated_at := 2 },
    events := [], inProcs := false, trace := [] }

/-- C5: on a freshly inserted pending run, claim_run commits the conditional
pending to starting update and then raises TypeError out of add_event (the
qmark placeholder bug), so the method never returns True even though the claim
took effect; on a non-pending run it returns False and leaves the state
entirely unchanged.  The claim that it returns true exactly when the status
was pending is therefore wrong about the successful side. -/
theorem C5_claim_commits_then_raises :
    claim_run (initState 0) 1 5 =
      ({ row := { status := Status.starting, pid := none, host := none,
                  started_at := none, stopped_at := none, last_heartbeat := none,
                  exit_code := none, notes := none, updated_at := 5 },
         events := [], inProcs := false,
         trace := [Act.dbUpdate Status.starting noKwargs,
                   Act.eventAttempt Level.info "Run claimed by runner service"] },
       Except.error PyExc.typeError) ∧
    claim_run c5stopped 1 5 = (c5stopped, Except.ok false) :=
  ⟨rfl, rfl⟩

/-- Fixture for C6: a tracked running run with pid 4242 and a live process. -/
def c6st : DbState :=
  { row := { status := Status.running, pid := some 4242, host := some "host1",
             started_at := some 1, stopped_at := none, last_heartbeat := some 40,
             exit_code := none, notes := none, updated_at := 40 },
    events := [], inProcs := true, trace := [] }

/-- C6: stop_strategy invoked for a tracked run whose backend would ignore the
cooperative stop commits the stopping update, then raises TypeError out of
add_event before any signal is sent: the full trace contains no SIGTERM, no
grace wait and no SIGKILL, the run is never finalized (stopped_at and
exit_code stay NULL, status stays stopping), and the method raises instead of
returning.  The claimed wait-then-force-kill-then-finalize behaviour never
happens. -/
theorem C6_stop_never_signals :
    (stop_strategy c6st 1 20 none 30).1.row.status = Status.stopping ∧
    (stop_strategy c6st 1 20 none 30).1.row.stopped_at = none ∧
    (stop_strategy c6st 1 20 none 30).1.row.exit_code = none ∧
    (stop_strategy c6st 1 20 none 30).2 = Except.error PyExc.typeError ∧
    (stop_strategy c6st 1 20 none 30).1.trace =
      [Act.dbUpdate Status.stopping noKwargs,
       Act.eventAttempt Level.info "Stopping strategy",
       Act.eventAttempt Level.error "Error stopping strategy"] :=
  ⟨rfl, rfl, rfl, rfl, rfl⟩

/-- Fixture for C7: the state of a run just claimed (status starting), about
to be launched. -/
def c7st : DbState :=
  { row := { status := Status.starting, pid := none, host := none,
             started_at := none, stopped_at := none, last_heartbeat := none,
             exit_code := none, notes := none, updated_at := 5 },
    events := [], inProcs := false, trace := [] }

/-- C7: when the launch raises, the except handler of launch_strategy calls
add_event first, which itself raises TypeError (qmark placeholder bug), so the
error status update with exit_code 1 on the next line never executes and no
event row is recorded: the run stays in status starting with NULL exit_code
and an empty event list, and the method raises.  The claimed error status,
exit_code 1 and single error event never materialize. -/
theorem C7_launch_failure_leaves_starting :
    (launch_strategy c7st 1 (Except.error "Popen failed") "host1" 6).1.row.status = Status.starting ∧
    (launch_strategy c7st 1 (Except.error "Popen failed") "host1" 6).1.row.exit_code = none ∧
    (launch_strategy c7st 1 (Except.error "Popen failed") "host1" 6).1.events = [] ∧
    (launch_strategy c7st 1 (Except.error "Popen failed") "host1" 6).2 =
      Except.error PyExc.typeError :=
  ⟨rfl, rfl, rfl, rfl⟩

/-- Fixture for C8: a tracked running run with pid 4242 that never sent a
heartbeat and whose process has vanished. -/
def c8st : DbState :=
  { row := { status := Status.running, pid := some 4242, host := some "host1",
             started_at := some 1, stopped_at := none, last_heartbeat := none,
             exit_code := none, notes := none, updated_at := 1 },
    events := [], inProcs := true, trace := [] }

/-- C8: when the heartbeat check kills a run, the committed UPDATE to the
terminal dead status comes first in the write trace and the run_events INSERT
is only attempted afterwards, where it raises (qmark placeholder bug), so the
run is observable in a terminal status while its event list is still empty.
The claimed event-before-terminal-status ordering does not hold, and no event
is ever recorded at all. -/
theorem C8_terminal_before_event :
    (check_heartbeats_run c8st 1 (fun _ => false) 100).1.row.status = Status.dead ∧
    (check_heartbeats_run c8st 1 (fun _ => false) 100).1.events = [] ∧
    (check_heartbeats_run c8st 1 (fun _ => false) 100).1.trace =
      [Act.dbUpdate Status.dead { noKwargs with exit_code := some (-1) },
       Act.eventAttempt Level.error "Process died unexpectedly"] ∧
    (check_heartbeats_run c8st 1 (fun _ => false) 100).2 = some PyExc.typeError :=
  ⟨rfl, rfl, rfl, rfl⟩

/-- C1 amended: every status change a system step performs on a reachable
state follows the section 4.1 edge list extended with the starting to stopping
edge, which the stop endpoint performs because its guard admits status
starting as well as running. -/
theorem C1_transitions_amended (run_id : Nat) (pid_exists : Nat → Bool)
    (now0 : Nat) (s sx : DbState) (hreach : Reach run_id pid_exists now0 s)
    (hstep : SysStep run_id pid_exists s sx) :
    sx.row.status = s.row.status ∨ (s.row.status, sx.row.status) ∈ amendedEdges := by
  obtain ⟨hproc, hstat⟩ := SysInv_reach run_id pid_exists now0 s hreach
  cases hstep with
  | claim now s =>
      by_cases hp : s.row.status = Status.pending
      · right
        rw [claim_run_pending s run_id now hp, hp]
        show (Status.pending, Status.starting) ∈ amendedEdges
        decide
      · left
        rw [claim_run_not_pending s run_id now hp]
  | launch s0 now0x popen host now s hclaim hs =>
      exact absurd hclaim (claim_run_never_true s0 run_id now0x)
  | monitor poll now s htracked =>
      rw [hproc] at htracked
      exact absurd htracked (by simp)
  | heartbeatCheck now s =>
      have hnr : s.row.status ≠ Status.running := by
        rcases hstat with hx | hx | hx <;> rw [hx] <;> simp
      left
      rw [check_run_not_running s run_id pid_exists now hnr]
  | endpointStop grace now s =>
      rw [stop_run_some]
      by_cases hc : s.row.status = Status.running ∨ s.row.status = Status.starting
      · rw [if_pos hc]
        right
        rcases hc with hx | hx
        · rw [hx]
          show (Status.running, Status.stopping) ∈ amendedEdges
          decide
        · rw [hx]
          show (Status.starting, Status.stopping) ∈ amendedEdges
          decide
      · rw [if_neg hc]
        left
        rfl
  | shutdownStop grace termExit now s =>
      left
      rw [stop_strategy_untracked s run_id grace termExit now hproc]
  | workloadHeartbeat now s =>
      left
      rfl

/-- The state of the C1 counterexample after the supervisor claims run 1 of
the fresh database at time 5: status starting. -/
def c1s1 : DbState := (claim_run (initState 0) 1 5).1

/-- The state of the C1 counterexample after the stop endpoint then marks the
starting run for stopping at time 6. -/
def c1s2 : DbState :=
  { c1s1 with row := ((stop_run (some c1s1.row) 20 6).2).getD c1s1.row }

/-- C1 counterexample: a reachable run in status starting is moved to stopping
by a system step (the stop endpoint, whose guard admits starting), and the
starting to stopping pair is not among the section 4.1 edges, so status does
not change only along those edges. -/
theorem C1_counterexample :
    Reach 1 (fun _ => true) 0 c1s1 ∧
    SysStep 1 (fun _ => true) c1s1 c1s2 ∧
    c1s1.row.status = Status.starting ∧
    c1s2.row.status = Status.stopping ∧
    decide ((c1s1.row.status, c1s2.row.status) ∈ specEdges) = false := by
  refine ⟨?_, ?_, rfl, rfl, rfl⟩
  · exact Relation.ReflTransGen.single (SysStep.claim 5 (initState 0))
  · exact SysStep.endpointStop 20 6 c1s1

theorem C1_witness :
    c1s2.row.status = c1s1.row.status ∨
      (c1s1.row.status, c1s2.row.status) ∈ amendedEdges := by
  exact C1_transitions_amended 1 (fun _ => true) 0 c1s1 c1s2
    (Relation.ReflTransGen.single (SysStep.claim 5 (initState 0)))
    (SysStep.endpointStop 20 6 c1s1)
